import Mathlib

/-!
Verification of the Mirrors reflection engine.

This file gives a shallow embedding of the reflection engine of the
Mirrors-4-hours repository (ReflectionEngine.js, Mirror.js, VirtualObject.js,
VirtualViewer.js, Viewer.js) and proves properties of it.

Modelling conventions:
- JS numbers are modelled as exact rationals.
- JS object reference identity for mirrors is modelled by giving each Mirror
  an identity token (mid); two mirror instances in a scene are the same
  object exactly when every field, mid included, agrees.  Two distinct
  instances with identical coordinates differ in mid.
- Rendering-only state (SVG elements, fill and stroke colors, drag handlers)
  is omitted: it is out of the engine's scope and no claim depends on it.
- The console.warn side effect in reflectPoint is modelled by the separate
  predicate reflectPointWarns, which holds exactly when the source reaches
  the console.warn statement.
- The JS recursion in generateReflectionsRecursive terminates because
  currentDepth strictly increases toward maxDepth.  The embedding passes the
  remaining budget as a structural fuel argument; the fuel-exhausted branch
  is unreachable from the public entry points, which supply
  fuel = maxDepth.toNat, an upper bound of the recursion depth.
-/

/-- A 2-D point, the value type used for vertices and positions. -/
structure Point where
  x : ℚ
  y : ℚ
deriving DecidableEq, Repr

/-- A mirror line segment (Mirror.js).  mid is the identity token modelling
JS object reference identity; x1 y1 x2 y2 are the segment endpoints. -/
structure Mirror where
  mid : Nat
  x1 : ℚ
  y1 : ℚ
  x2 : ℚ
  y2 : ℚ
deriving DecidableEq, Repr

/-- Mirror.isVertical from Mirror.js: x1 equals x2. -/
def Mirror.isVertical (m : Mirror) : Bool := decide (m.x1 = m.x2)

/-- Mirror.isHorizontal from Mirror.js: y1 equals y2. -/
def Mirror.isHorizontal (m : Mirror) : Bool := decide (m.y1 = m.y2)

/-- ReflectionEngine.reflectPoint: reflect a point across a mirror line.
Vertical mirrors are checked first; for a non-orthogonal mirror the source
warns on the console and returns the input point unchanged. -/
def reflectPoint (point : Point) (mirror : Mirror) : Point :=
  if mirror.isVertical then
    { x := 2 * mirror.x1 - point.x, y := point.y }
  else if mirror.isHorizontal then
    { x := point.x, y := 2 * mirror.y1 - point.y }
  else
    point

/-- Whether ReflectionEngine.reflectPoint reaches its console.warn statement,
i.e. the mirror is neither vertical nor horizontal. -/
def reflectPointWarns (mirror : Mirror) : Bool :=
  !mirror.isVertical && !mirror.isHorizontal

/-- ReflectionEngine.reflectPolygon: reflect every vertex, preserving order. -/
def reflectPolygon (vertices : List Point) (mirror : Mirror) : List Point :=
  vertices.map (fun vertex => reflectPoint vertex mirror)

/-- A real polygon object (PolygonObject.js); only the geometry is kept. -/
structure PolygonObject where
  vertices : List Point
deriving DecidableEq, Repr

/-- A virtual reflection of a real object (VirtualObject.js); rendering-only
fields are omitted, opacity is kept because its value is depth-derived. -/
structure VirtualObject where
  originalObject : PolygonObject
  reflectionChain : List Mirror
  depth : Nat
  vertices : List Point
  opacity : ℚ
deriving DecidableEq, Repr

/-- The VirtualObject constructor: stores the relationships and geometry and
computes opacity as max(0.3, 1 - depth * 0.2). -/
def mkVirtualObject (originalObject : PolygonObject) (reflectionChain : List Mirror)
    (depth : Nat) (vertices : List Point) : VirtualObject :=
  { originalObject := originalObject
    reflectionChain := reflectionChain
    depth := depth
    vertices := vertices
    opacity := max (3 / 10) (1 - (depth : ℚ) * (2 / 10)) }

/-- VirtualObject.updatePosition: replace the stored vertices. -/
def VirtualObject.updatePosition (vo : VirtualObject) (newVertices : List Point) :
    VirtualObject :=
  { vo with vertices := newVertices }

/-- The real viewer (Viewer.js); only position and radius are kept. -/
structure Viewer where
  x : ℚ
  y : ℚ
  radius : ℚ
deriving DecidableEq, Repr

/-- Viewer.getPosition. -/
def Viewer.getPosition (v : Viewer) : Point := { x := v.x, y := v.y }

/-- A virtual reflection of the viewer (VirtualViewer.js); rendering-only
fields are omitted, opacity is kept because its value is depth-derived. -/
structure VirtualViewer where
  originalViewer : Viewer
  reflectionChain : List Mirror
  depth : Nat
  x : ℚ
  y : ℚ
  radius : ℚ
  opacity : ℚ
deriving DecidableEq, Repr

/-- The VirtualViewer constructor: stores position and radius and computes
opacity as max(0.3, 1 - depth * 0.2).  The engine always passes the original
viewer's radius for the radius argument. -/
def mkVirtualViewer (originalViewer : Viewer) (reflectionChain : List Mirror)
    (depth : Nat) (position : Point) (radius : ℚ) : VirtualViewer :=
  { originalViewer := originalViewer
    reflectionChain := reflectionChain
    depth := depth
    x := position.x
    y := position.y
    radius := radius
    opacity := max (3 / 10) (1 - (depth : ℚ) * (2 / 10)) }

/-- ReflectionEngine.generateReflectionsRecursive: walk every mirror except
the one just used, emit one VirtualObject per step and recurse on the
reflected geometry.  fuel is the structural termination budget explained in
the header; the source guard currentDepth >= maxDepth is kept verbatim. -/
def generateReflectionsRecursive (fuel : Nat) (vertices : List Point)
    (originalObject : PolygonObject) (mirrors : List Mirror) (maxDepth : Int)
    (currentDepth : Nat) (reflectionChain : List Mirror) : List VirtualObject :=
  if (currentDepth : Int) ≥ maxDepth then
    []
  else
    match fuel with
    | 0 => []
    | fuel + 1 =>
      mirrors.flatMap (fun mirror =>
        if reflectionChain.getLast? = some mirror then
          []
        else
          let reflectedVertices := reflectPolygon vertices mirror
          let newReflectionChain := reflectionChain ++ [mirror]
          mkVirtualObject originalObject newReflectionChain (currentDepth + 1)
              reflectedVertices ::
            generateReflectionsRecursive fuel reflectedVertices originalObject mirrors
              maxDepth (currentDepth + 1) newReflectionChain)

/-- ReflectionEngine.generateVirtualObjects: run the recursion from the real
object's vertices at depth 0 with an empty chain. -/
def generateVirtualObjects (object : PolygonObject) (mirrors : List Mirror)
    (maxDepth : Int) : List VirtualObject :=
  generateReflectionsRecursive maxDepth.toNat object.vertices object mirrors maxDepth 0 []

/-- ReflectionEngine.calculateAllReflections: concatenate the virtual objects
of every real object, object-major. -/
def calculateAllReflections (objects : List PolygonObject) (mirrors : List Mirror)
    (maxDepth : Int) : List VirtualObject :=
  objects.flatMap (fun object => generateVirtualObjects object mirrors maxDepth)

/-- ReflectionEngine.generateViewerReflectionsRecursive: the same recursion
specialised to the single viewer point. -/
def generateViewerReflectionsRecursive (fuel : Nat) (position : Point)
    (originalViewer : Viewer) (mirrors : List Mirror) (maxDepth : Int)
    (currentDepth : Nat) (reflectionChain : List Mirror) : List VirtualViewer :=
  if (currentDepth : Int) ≥ maxDepth then
    []
  else
    match fuel with
    | 0 => []
    | fuel + 1 =>
      mirrors.flatMap (fun mirror =>
        if reflectionChain.getLast? = some mirror then
          []
        else
          let reflectedPosition := reflectPoint position mirror
          let newReflectionChain := reflectionChain ++ [mirror]
          mkVirtualViewer originalViewer newReflectionChain (currentDepth + 1)
              reflectedPosition originalViewer.radius ::
            generateViewerReflectionsRecursive fuel reflectedPosition originalViewer
              mirrors maxDepth (currentDepth + 1) newReflectionChain)

/-- ReflectionEngine.generateVirtualViewers: a null viewer yields the empty
list; otherwise run the viewer recursion from the viewer's position. -/
def generateVirtualViewers (viewer : Option Viewer) (mirrors : List Mirror)
    (maxDepth : Int) : List VirtualViewer :=
  match viewer with
  | none => []
  | some v =>
    generateViewerReflectionsRecursive maxDepth.toNat v.getPosition v mirrors maxDepth 0 []

/-- ReflectionEngine.calculateAllReflectionsWithViewer. -/
def calculateAllReflectionsWithViewer (objects : List PolygonObject)
    (viewer : Option Viewer) (mirrors : List Mirror) (maxDepth : Int) :
    List VirtualObject × List VirtualViewer :=
  (calculateAllReflections objects mirrors maxDepth,
    generateVirtualViewers viewer mirrors maxDepth)

/-- ReflectionEngine.updateVirtualObjects: recompute each virtual object's
geometry by reflecting its original object's current vertices across
reflectionChain[0] only.  The source indexes the chain head unconditionally;
engine-produced chains are never empty, and on an empty chain (where the JS
would fault on an undefined mirror) the entry is left unchanged. -/
def updateVirtualObjects (virtualObjects : List VirtualObject) : List VirtualObject :=
  virtualObjects.map (fun virtualObject =>
    match virtualObject.reflectionChain.head? with
    | some mirror =>
      virtualObject.updatePosition
        (reflectPolygon virtualObject.originalObject.vertices mirror)
    | none => virtualObject)

/-- Composition of a reflection chain in order, used as the independent
stepwise recomputation the spec compares node geometry against. -/
def applyChain (vertices : List Point) (chain : List Mirror) : List Point :=
  chain.foldl (fun vs m => reflectPolygon vs m) vertices

/-! Concrete scene used by witnesses and counterexamples: a full orthogonal
box of four distinct mirrors around a 100 by 100 square, a triangle object
and the viewer, plus a non-orthogonal and a degenerate mirror. -/

/-- Left wall of the box, vertical at x = 0. -/
def mLeft : Mirror := { mid := 0, x1 := 0, y1 := 0, x2 := 0, y2 := 100 }

/-- Right wall of the box, vertical at x = 100 (Scenario 1's mirror). -/
def mRight : Mirror := { mid := 1, x1 := 100, y1 := 0, x2 := 100, y2 := 100 }

/-- Top wall of the box, horizontal at y = 0. -/
def mTop : Mirror := { mid := 2, x1 := 0, y1 := 0, x2 := 100, y2 := 0 }

/-- Bottom wall of the box, horizontal at y = 100. -/
def mBottom : Mirror := { mid := 3, x1 := 0, y1 := 100, x2 := 100, y2 := 100 }

/-- The full orthogonal box of four distinct mirror instances. -/
def boxMirrors : List Mirror := [mLeft, mRight, mTop, mBottom]

/-- Scenario 2's horizontal mirror at y = 50. -/
def mHorizontal50 : Mirror := { mid := 4, x1 := 0, y1 := 50, x2 := 100, y2 := 50 }

/-- A non-orthogonal (diagonal) mirror: x1 differs from x2 and y1 from y2. -/
def mDiagonal : Mirror := { mid := 5, x1 := 0, y1 := 0, x2 := 100, y2 := 100 }

/-- A degenerate mirror whose endpoints coincide: both isVertical and
isHorizontal hold. -/
def mDegenerate : Mirror := { mid := 6, x1 := 25, y1 := 35, x2 := 25, y2 := 35 }

/-- A triangle real object inside the box. -/
def triangleObject : PolygonObject :=
  { vertices := [{ x := 40, y := 50 }, { x := 60, y := 50 }, { x := 50, y := 70 }] }

/-- A concrete viewer inside the box. -/
def cViewer : Viewer := { x := 40, y := 50, radius := 15 }

/-- The depth-1 virtual object for chain [mRight] of the triangle. -/
def cVo1 : VirtualObject :=
  mkVirtualObject triangleObject [mRight] 1
    [{ x := 160, y := 50 }, { x := 140, y := 50 }, { x := 150, y := 70 }]

/-- The depth-2 virtual object for chain [mRight, mBottom] of the triangle. -/
def cVo2 : VirtualObject :=
  mkVirtualObject triangleObject [mRight, mBottom] 2
    [{ x := 160, y := 150 }, { x := 140, y := 150 }, { x := 150, y := 130 }]

/-- The depth-2 virtual viewer for chain [mRight, mBottom]. -/
def cVv2 : VirtualViewer :=
  mkVirtualViewer cViewer [mRight, mBottom] 2 { x := 160, y := 150 } 15

unseal Rat.mul Rat.sub Rat.add Rat.inv

/-! Basic unfolding lemmas for the object recursion. -/

/-- The object recursion emits nothing once currentDepth has reached maxDepth. -/
theorem generateReflectionsRecursive_stop {fuel : Nat} {vertices : List Point}
    {originalObject : PolygonObject} {mirrors : List Mirror} {maxDepth : Int}
    {currentDepth : Nat} {reflectionChain : List Mirror}
    (h : (currentDepth : Int) ≥ maxDepth) :
    generateReflectionsRecursive fuel vertices originalObject mirrors maxDepth
      currentDepth reflectionChain = [] := by
  cases fuel <;> simp [generateReflectionsRecursive, h]

/-- The object recursion emits nothing with exhausted fuel. -/
theorem generateReflectionsRecursive_fuel_zero {vertices : List Point}
    {originalObject : PolygonObject} {mirrors : List Mirror} {maxDepth : Int}
    {currentDepth : Nat} {reflectionChain : List Mirror} :
    generateReflectionsRecursive 0 vertices originalObject mirrors maxDepth
      currentDepth reflectionChain = [] := by
  by_cases h : (currentDepth : Int) ≥ maxDepth <;>
    simp [generateReflectionsRecursive, h]

/-- One unfolding of the object recursion below the depth bound. -/
theorem generateReflectionsRecursive_step {fuel : Nat} {vertices : List Point}
    {originalObject : PolygonObject} {mirrors : List Mirror} {maxDepth : Int}
    {currentDepth : Nat} {reflectionChain : List Mirror}
    (h : ¬ ((currentDepth : Int) ≥ maxDepth)) :
    generateReflectionsRecursive (fuel + 1) vertices originalObject mirrors maxDepth
        currentDepth reflectionChain =
      mirrors.flatMap (fun mirror =>
        if reflectionChain.getLast? = some mirror then
          []
        else
          mkVirtualObject originalObject (reflectionChain ++ [mirror]) (currentDepth + 1)
              (reflectPolygon vertices mirror) ::
            generateReflectionsRecursive fuel (reflectPolygon vertices mirror)
              originalObject mirrors maxDepth (currentDepth + 1)
              (reflectionChain ++ [mirror])) := by
  simp [generateReflectionsRecursive, h]

/-! The same unfolding lemmas for the viewer recursion. -/

/-- The viewer recursion emits nothing once currentDepth has reached maxDepth. -/
theorem generateViewerReflectionsRecursive_stop {fuel : Nat} {position : Point}
    {originalViewer : Viewer} {mirrors : List Mirror} {maxDepth : Int}
    {currentDepth : Nat} {reflectionChain : List Mirror}
    (h : (currentDepth : Int) ≥ maxDepth) :
    generateViewerReflectionsRecursive fuel position originalViewer mirrors maxDepth
      currentDepth reflectionChain = [] := by
  cases fuel <;> simp [generateViewerReflectionsRecursive, h]

/-- The viewer recursion emits nothing with exhausted fuel. -/
theorem generateViewerReflectionsRecursive_fuel_zero {position : Point}
    {originalViewer : Viewer} {mirrors : List Mirror} {maxDepth : Int}
    {currentDepth : Nat} {reflectionChain : List Mirror} :
    generateViewerReflectionsRecursive 0 position originalViewer mirrors maxDepth
      currentDepth reflectionChain = [] := by
  by_cases h : (currentDepth : Int) ≥ maxDepth <;>
    simp [generateViewerReflectionsRecursive, h]

/-- One unfolding of the viewer recursion below the depth bound. -/
theorem generateViewerReflectionsRecursive_step {fuel : Nat} {position : Point}
    {originalViewer : Viewer} {mirrors : List Mirror} {maxDepth : Int}
    {currentDepth : Nat} {reflectionChain : List Mirror}
    (h : ¬ ((currentDepth : Int) ≥ maxDepth)) :
    generateViewerReflectionsRecursive (fuel + 1) position originalViewer mirrors maxDepth
        currentDepth reflectionChain =
      mirrors.flatMap (fun mirror =>
        if reflectionChain.getLast? = some mirror then
          []
        else
          mkVirtualViewer originalViewer (reflectionChain ++ [mirror]) (currentDepth + 1)
              (reflectPoint position mirror) originalViewer.radius ::
            generateViewerReflectionsRecursive fuel (reflectPoint position mirror)
              originalViewer mirrors maxDepth (currentDepth + 1)
              (reflectionChain ++ [mirror])) := by
  simp [generateViewerReflectionsRecursive, h]

/-! Adjacency-exclusion invariant: chains never repeat the mirror just used. -/

/-- Extending a duplicate-free chain by a mirror different from its last
entry keeps it duplicate-free in consecutive positions. -/
theorem chain_ne_append_of_not_last {reflectionChain : List Mirror} {mirror : Mirror}
    (hchain : List.Chain' (fun a b => a ≠ b) reflectionChain)
    (hskip : ¬ reflectionChain.getLast? = some mirror) :
    List.Chain' (fun a b => a ≠ b) (reflectionChain ++ [mirror]) := by
  rw [List.chain'_append]
  refine ⟨hchain, List.chain'_singleton mirror, ?_⟩
  intro x hx y hy
  simp only [List.head?_cons, Option.mem_def, Option.some.injEq] at hy
  subst hy
  simp only [Option.mem_def] at hx
  intro hxy
  exact hskip (by rw [← hxy]; exact hx)

/-- Every chain emitted by the object recursion from a consecutive-distinct
chain is consecutive-distinct. -/
theorem generateReflectionsRecursive_chain_ne (fuel : Nat) :
    ∀ (vertices : List Point) (originalObject : PolygonObject) (mirrors : List Mirror)
      (maxDepth : Int) (currentDepth : Nat) (reflectionChain : List Mirror),
      List.Chain' (fun a b => a ≠ b) reflectionChain →
      ∀ vo ∈ generateReflectionsRecursive fuel vertices originalObject mirrors maxDepth
          currentDepth reflectionChain,
        List.Chain' (fun a b => a ≠ b) vo.reflectionChain := by
  induction fuel with
  | zero =>
    intro vertices originalObject mirrors maxDepth currentDepth reflectionChain _ vo hvo
    rw [generateReflectionsRecursive_fuel_zero] at hvo
    simp at hvo
  | succ fuel ih =>
    intro vertices originalObject mirrors maxDepth currentDepth reflectionChain hchain vo hvo
    by_cases hstop : (currentDepth : Int) ≥ maxDepth
    · rw [generateReflectionsRecursive_stop hstop] at hvo
      simp at hvo
    · rw [generateReflectionsRecursive_step hstop] at hvo
      rw [List.mem_flatMap] at hvo
      obtain ⟨mirror, _, hvo⟩ := hvo
      by_cases hskip : reflectionChain.getLast? = some mirror
      · rw [if_pos hskip] at hvo
        simp at hvo
      · rw [if_neg hskip] at hvo
        have hnew := chain_ne_append_of_not_last hchain hskip
        rcases List.mem_cons.mp hvo with rfl | hvo
        · simpa [mkVirtualObject] using hnew
        · exact ih _ _ _ _ _ _ hnew vo hvo

/-- Every chain emitted by the viewer recursion from a consecutive-distinct
chain is consecutive-distinct. -/
theorem generateViewerReflectionsRecursive_chain_ne (fuel : Nat) :
    ∀ (position : Point) (originalViewer : Viewer) (mirrors : List Mirror)
      (maxDepth : Int) (currentDepth : Nat) (reflectionChain : List Mirror),
      List.Chain' (fun a b => a ≠ b) reflectionChain →
      ∀ vv ∈ generateViewerReflectionsRecursive fuel position originalViewer mirrors
          maxDepth currentDepth reflectionChain,
        List.Chain' (fun a b => a ≠ b) vv.reflectionChain := by
  induction fuel with
  | zero =>
    intro position originalViewer mirrors maxDepth currentDepth reflectionChain _ vv hvv
    rw [generateViewerReflectionsRecursive_fuel_zero] at hvv
    simp at hvv
  | succ fuel ih =>
    intro position originalViewer mirrors maxDepth currentDepth reflectionChain hchain vv hvv
    by_cases hstop : (currentDepth : Int) ≥ maxDepth
    · rw [generateViewerReflectionsRecursive_stop hstop] at hvv
      simp at hvv
    · rw [generateViewerReflectionsRecursive_step hstop] at hvv
      rw [List.mem_flatMap] at hvv
      obtain ⟨mirror, _, hvv⟩ := hvv
      by_cases hskip : reflectionChain.getLast? = some mirror
      · rw [if_pos hskip] at hvv
        simp at hvv
      · rw [if_neg hskip] at hvv
        have hnew := chain_ne_append_of_not_last hchain hskip
        rcases List.mem_cons.mp hvv with rfl | hvv
        · simpa [mkVirtualViewer] using hnew
        · exact ih _ _ _ _ _ _ hnew vv hvv

/-! Compositional geometry: each node's vertices are its chain's stepwise
reflections applied in order to the root geometry. -/

/-- Chain composition over an extended chain. -/
theorem applyChain_concat (vertices : List Point) (chain : List Mirror) (m : Mirror) :
    applyChain vertices (chain ++ [m]) = reflectPolygon (applyChain vertices chain) m := by
  simp [applyChain, List.foldl_append]

/-- Every node emitted by the object recursion carries the stepwise
composition of its chain applied to the root geometry. -/
theorem generateReflectionsRecursive_vertices (fuel : Nat) :
    ∀ (vertices : List Point) (originalObject : PolygonObject) (mirrors : List Mirror)
      (maxDepth : Int) (currentDepth : Nat) (reflectionChain : List Mirror)
      (base : List Point),
      vertices = applyChain base reflectionChain →
      ∀ vo ∈ generateReflectionsRecursive fuel vertices originalObject mirrors maxDepth
          currentDepth reflectionChain,
        vo.vertices = applyChain base vo.reflectionChain := by
  induction fuel with
  | zero =>
    intro vertices originalObject mirrors maxDepth currentDepth reflectionChain base _ vo hvo
    rw [generateReflectionsRecursive_fuel_zero] at hvo
    simp at hvo
  | succ fuel ih =>
    intro vertices originalObject mirrors maxDepth currentDepth reflectionChain base hbase vo hvo
    by_cases hstop : (currentDepth : Int) ≥ maxDepth
    · rw [generateReflectionsRecursive_stop hstop] at hvo
      simp at hvo
    · rw [generateReflectionsRecursive_step hstop] at hvo
      rw [List.mem_flatMap] at hvo
      obtain ⟨mirror, _, hvo⟩ := hvo
      by_cases hskip : reflectionChain.getLast? = some mirror
      · rw [if_pos hskip] at hvo
        simp at hvo
      · rw [if_neg hskip] at hvo
        have hnewbase : reflectPolygon vertices mirror
            = applyChain base (reflectionChain ++ [mirror]) := by
          rw [applyChain_concat, ← hbase]
        rcases List.mem_cons.mp hvo with rfl | hvo
        · simpa [mkVirtualObject] using hnewbase
        · exact ih _ _ _ _ _ _ _ hnewbase vo hvo

/-! Depth-derived opacity invariant. -/

/-- Every node emitted by the object recursion has the constructor's
depth-derived opacity. -/
theorem generateReflectionsRecursive_opacity (fuel : Nat) :
    ∀ (vertices : List Point) (originalObject : PolygonObject) (mirrors : List Mirror)
      (maxDepth : Int) (currentDepth : Nat) (reflectionChain : List Mirror),
      ∀ vo ∈ generateReflectionsRecursive fuel vertices originalObject mirrors maxDepth
          currentDepth reflectionChain,
        vo.opacity = max (3 / 10) (1 - (vo.depth : ℚ) * (2 / 10)) := by
  induction fuel with
  | zero =>
    intro vertices originalObject mirrors maxDepth currentDepth reflectionChain vo hvo
    rw [generateReflectionsRecursive_fuel_zero] at hvo
    simp at hvo
  | succ fuel ih =>
    intro vertices originalObject mirrors maxDepth currentDepth reflectionChain vo hvo
    by_cases hstop : (currentDepth : Int) ≥ maxDepth
    · rw [generateReflectionsRecursive_stop hstop] at hvo
      simp at hvo
    · rw [generateReflectionsRecursive_step hstop] at hvo
      rw [List.mem_flatMap] at hvo
      obtain ⟨mirror, _, hvo⟩ := hvo
      by_cases hskip : reflectionChain.getLast? = some mirror
      · rw [if_pos hskip] at hvo
        simp at hvo
      · rw [if_neg hskip] at hvo
        rcases List.mem_cons.mp hvo with rfl | hvo
        · simp [mkVirtualObject]
        · exact ih _ _ _ _ _ _ vo hvo

/-- Every node emitted by the viewer recursion has the constructor's
depth-derived opacity. -/
theorem generateViewerReflectionsRecursive_opacity (fuel : Nat) :
    ∀ (position : Point) (originalViewer : Viewer) (mirrors : List Mirror)
      (maxDepth : Int) (currentDepth : Nat) (reflectionChain : List Mirror),
      ∀ vv ∈ generateViewerReflectionsRecursive fuel position originalViewer mirrors
          maxDepth currentDepth reflectionChain,
        vv.opacity = max (3 / 10) (1 - (vv.depth : ℚ) * (2 / 10)) := by
  induction fuel with
  | zero =>
    intro position originalViewer mirrors maxDepth currentDepth reflectionChain vv hvv
    rw [generateViewerReflectionsRecursive_fuel_zero] at hvv
    simp at hvv
  | succ fuel ih =>
    intro position originalViewer mirrors maxDepth currentDepth reflectionChain vv hvv
    by_cases hstop : (currentDepth : Int) ≥ maxDepth
    · rw [generateViewerReflectionsRecursive_stop hstop] at hvv
      simp at hvv
    · rw [generateViewerReflectionsRecursive_step hstop] at hvv
      rw [List.mem_flatMap] at hvv
      obtain ⟨mirror, _, hvv⟩ := hvv
      by_cases hskip : reflectionChain.getLast? = some mirror
      · rw [if_pos hskip] at hvv
        simp at hvv
      · rw [if_neg hskip] at hvv
        rcases List.mem_cons.mp hvv with rfl | hvv
        · simp [mkVirtualViewer]
        · exact ih _ _ _ _ _ _ vv hvv

/-- The opacity formula is non-increasing in depth. -/
theorem opacity_formula_antitone {d1 d2 : Nat} (h : d1 ≤ d2) :
    max ((3 : ℚ) / 10) (1 - (d2 : ℚ) * (2 / 10))
      ≤ max ((3 : ℚ) / 10) (1 - (d1 : ℚ) * (2 / 10)) := by
  apply max_le_max le_rfl
  have hc : (d1 : ℚ) ≤ (d2 : ℚ) := by exact_mod_cast h
  have := mul_le_mul_of_nonneg_right hc (show (0 : ℚ) ≤ 2 / 10 by norm_num)
  linarith

/-! Node counting for the chain-tree search. -/

/-- Nodes generated below one node of the tree, with n mirrors, one of which
(the mirror just used) is excluded at every level, and r remaining levels. -/
def subtreeCount (n : Nat) : Nat → Nat
  | 0 => 0
  | r + 1 => (n - 1) * (1 + subtreeCount n r)

/-- Summing a function that is zero at one value and a constant elsewhere. -/
theorem sum_map_ite_eq_zero_count {α : Type} [DecidableEq α] (l : List α) (m : α) (K : Nat) :
    (l.map (fun x => if x = m then 0 else K)).sum = K * (l.length - l.count m) := by
  induction l with
  | nil => simp
  | cons x xs ih =>
    have hc : xs.count m ≤ xs.length := List.count_le_length m xs
    by_cases hx : x = m
    · subst hx
      simp only [List.map_cons, List.sum_cons, ih, List.count_cons_self, List.length_cons]
      simp only [if_true, eq_self_iff_true]
      have ht : xs.length + 1 - (xs.count x + 1) = xs.length - xs.count x := by omega
      rw [ht]
      omega
    · simp only [List.map_cons, List.sum_cons, if_neg hx, ih, List.length_cons,
        List.count_cons_of_ne (by exact fun h => hx h.symm)]
      have ht : xs.length + 1 - xs.count m = (xs.length - xs.count m) + 1 := by omega
      rw [ht, Nat.mul_succ]
      omega

/-- Summing a constant function over a list. -/
theorem sum_map_const_eq {α : Type} (l : List α) (K : Nat) :
    (l.map (fun _ => K)).sum = l.length * K := by
  induction l with
  | nil => simp
  | cons x xs ih =>
    simp only [List.map_cons, List.sum_cons, ih, List.length_cons]
    rw [Nat.succ_mul]
    omega

/-- Length of the object recursion's output below a node whose chain ends in
a scene mirror: with duplicate-free mirrors, exactly one candidate is skipped
at every level. -/
theorem generateReflectionsRecursive_length (fuel : Nat) :
    ∀ (vertices : List Point) (originalObject : PolygonObject) (mirrors : List Mirror)
      (maxDepth : Int) (currentDepth : Nat) (reflectionChain : List Mirror) (m : Mirror),
      mirrors.Nodup → reflectionChain.getLast? = some m → m ∈ mirrors →
      (maxDepth - (currentDepth : Int)).toNat ≤ fuel →
      (generateReflectionsRecursive fuel vertices originalObject mirrors maxDepth
          currentDepth reflectionChain).length
        = subtreeCount mirrors.length (maxDepth - (currentDepth : Int)).toNat := by
  induction fuel with
  | zero =>
    intro vertices originalObject mirrors maxDepth currentDepth reflectionChain m _ _ _ hfuel
    have h0 : (maxDepth - (currentDepth : Int)).toNat = 0 := Nat.le_zero.mp hfuel
    rw [generateReflectionsRecursive_fuel_zero, h0]
    simp [subtreeCount]
  | succ fuel ih =>
    intro vertices originalObject mirrors maxDepth currentDepth reflectionChain m
      hnd hlast hmem hfuel
    by_cases hstop : (currentDepth : Int) ≥ maxDepth
    · have h0 : (maxDepth - (currentDepth : Int)).toNat = 0 := by omega
      rw [generateReflectionsRecursive_stop hstop, h0]
      simp [subtreeCount]
    · obtain ⟨r, hr⟩ : ∃ r, (maxDepth - (currentDepth : Int)).toNat = r + 1 :=
        ⟨(maxDepth - (currentDepth : Int)).toNat - 1, by omega⟩
      have hrnext : (maxDepth - ((currentDepth : Nat) + 1 : Nat)).toNat = r := by
        push_cast
        omega
      rw [generateReflectionsRecursive_step hstop, List.length_flatMap]
      have hmap : mirrors.map
            (List.length ∘ fun mirror =>
              if reflectionChain.getLast? = some mirror then
                []
              else
                mkVirtualObject originalObject (reflectionChain ++ [mirror])
                    (currentDepth + 1) (reflectPolygon vertices mirror) ::
                  generateReflectionsRecursive fuel (reflectPolygon vertices mirror)
                    originalObject mirrors maxDepth (currentDepth + 1)
                    (reflectionChain ++ [mirror]))
          = mirrors.map (fun mirror =>
              if mirror = m then 0 else 1 + subtreeCount mirrors.length r) := by
        apply List.map_congr_left
        intro mirror hmirror
        by_cases hmm : mirror = m
        · subst hmm
          simp [hlast]
        · have hne : ¬ reflectionChain.getLast? = some mirror := by
            rw [hlast]
            simp only [Option.some.injEq]
            exact fun h => hmm h.symm
          simp only [Function.comp_apply, if_neg hne, if_neg hmm, List.length_cons]
          rw [ih _ _ _ _ _ _ mirror hnd (List.getLast?_concat reflectionChain) hmirror
            (by omega), hrnext]
          omega
      rw [hmap, sum_map_ite_eq_zero_count, List.count_eq_one_of_mem hnd hmem, hr]
      simp only [subtreeCount]
      rw [Nat.mul_comm]

/-- Length of a full engine invocation with duplicate-free mirrors and a
positive depth bound: the root skips nothing, each child subtree skips one. -/
theorem generateVirtualObjects_length_of_nodup (object : PolygonObject)
    (mirrors : List Mirror) (maxDepth : Int) (hnd : mirrors.Nodup)
    (hd : 1 ≤ maxDepth) :
    (generateVirtualObjects object mirrors maxDepth).length
      = mirrors.length * (1 + subtreeCount mirrors.length (maxDepth.toNat - 1)) := by
  unfold generateVirtualObjects
  obtain ⟨fuel, hfuel⟩ : ∃ fuel, maxDepth.toNat = fuel + 1 :=
    ⟨maxDepth.toNat - 1, by omega⟩
  rw [hfuel]
  have hstop : ¬ (((0 : Nat) : Int) ≥ maxDepth) := by
    push_cast
    omega
  rw [generateReflectionsRecursive_step hstop, List.length_flatMap]
  have hmap : mirrors.map
        (List.length ∘ fun mirror =>
          if ([] : List Mirror).getLast? = some mirror then
            []
          else
            mkVirtualObject object ([] ++ [mirror]) (0 + 1)
                (reflectPolygon object.vertices mirror) ::
              generateReflectionsRecursive fuel (reflectPolygon object.vertices mirror)
                object mirrors maxDepth (0 + 1) ([] ++ [mirror]))
      = mirrors.map (fun _ => 1 + subtreeCount mirrors.length fuel) := by
    apply List.map_congr_left
    intro mirror hmirror
    have hne : ¬ ([] : List Mirror).getLast? = some mirror := by simp
    simp only [Function.comp_apply, if_neg hne, List.length_cons]
    have hr1 : (maxDepth - ((0 : Nat) + 1 : Nat)).toNat = fuel := by
      push_cast
      omega
    rw [generateReflectionsRecursive_length fuel (reflectPolygon object.vertices mirror)
      object mirrors maxDepth (0 + 1) ([] ++ [mirror]) mirror hnd
      (List.getLast?_concat []) hmirror (le_of_eq hr1), hr1]
    omega
  rw [hmap, sum_map_const_eq]
  simp

/-- Closed form of the box count: 4 children at the root and 3 at every
deeper level, summed over all depths 1..r+1. -/
theorem subtreeCount_box (r : Nat) :
    4 * (1 + subtreeCount 4 r) = 2 * (3 ^ (r + 1) - 1) := by
  induction r with
  | zero => decide
  | succ r ih =>
    have h1 : 1 ≤ 3 ^ (r + 1) := Nat.one_le_pow _ _ (by norm_num)
    have h2 : 3 ^ (r + 1 + 1) = 3 * 3 ^ (r + 1) := by ring
    simp only [subtreeCount] at ih ⊢
    omega

/-- C1: the claim fails on the code at the concrete full box and depth 2:
the engine materializes one entity per chain at every depth 1..maxDepth, so
it returns 16 virtual objects, not 4 * 3 ^ (2 - 1) = 12. -/
theorem count_box_depth2_counterexample :
    (generateVirtualObjects triangleObject boxMirrors 2).length ≠ 4 * 3 ^ (2 - 1) ∧
    (generateVirtualObjects triangleObject boxMirrors 2).length = 16 := by
  constructor
  · decide
  · decide

/-- C1 amended: for every object with at least 3 vertices and every list of
4 distinct mirror instances, generateVirtualObjects with maxDepth = d
returns exactly 2 * (3 ^ d - 1) virtual objects for every d ≥ 1 (the sum of
4 * 3 ^ (k - 1) over all depths k = 1..d), and exactly 0 for d = 0. -/
theorem count_box_closed_form :
    ∀ (object : PolygonObject) (mirrors : List Mirror),
      3 ≤ object.vertices.length → mirrors.length = 4 → mirrors.Nodup →
      (∀ d : Nat, 1 ≤ d →
        (generateVirtualObjects object mirrors (d : Int)).length = 2 * (3 ^ d - 1)) ∧
      generateVirtualObjects object mirrors 0 = [] := by
  intro object mirrors _ h4 hnd
  constructor
  · intro d hd
    rw [generateVirtualObjects_length_of_nodup object mirrors (d : Int) hnd
      (by exact_mod_cast hd)]
    rw [h4, Int.toNat_natCast]
    have hbox := subtreeCount_box (d - 1)
    have hd1 : d - 1 + 1 = d := by omega
    rw [hd1] at hbox
    exact hbox
  · unfold generateVirtualObjects
    exact generateReflectionsRecursive_stop (by simp)

/-- C1 witness: the amended count at the concrete box and triangle, at depth
2 (16 entities) and depth 0 (none). -/
theorem count_box_closed_form_witness :
    (generateVirtualObjects triangleObject boxMirrors ((2 : Nat) : Int)).length
        = 2 * (3 ^ 2 - 1) ∧
      generateVirtualObjects triangleObject boxMirrors 0 = [] :=
  ⟨(count_box_closed_form triangleObject boxMirrors (by decide) (by decide)
      (by decide)).1 2 (by decide),
    (count_box_closed_form triangleObject boxMirrors (by decide) (by decide)
      (by decide)).2⟩

/-- C2 (confirmed): every virtual object returned by generateVirtualObjects
whose reflectionChain is a 2-chain [A, B] carries exactly the stepwise
composition reflectPolygon (reflectPolygon originalVertices A) B. -/
theorem two_chain_compositional :
    ∀ (object : PolygonObject) (mirrors : List Mirror) (maxDepth : Int) (A B : Mirror),
      ∀ vo ∈ generateVirtualObjects object mirrors maxDepth,
        vo.reflectionChain = [A, B] →
        vo.vertices = reflectPolygon (reflectPolygon object.vertices A) B := by
  intro object mirrors maxDepth A B vo hvo hchain
  unfold generateVirtualObjects at hvo
  have h := generateReflectionsRecursive_vertices maxDepth.toNat object.vertices object
    mirrors maxDepth 0 [] object.vertices (by simp [applyChain]) vo hvo
  rw [hchain] at h
  simpa [applyChain] using h

/-- C2 witness: the compositional property at the concrete depth-2 node of
the triangle for the chain [mRight, mBottom]. -/
theorem two_chain_compositional_witness :
    cVo2.vertices = reflectPolygon (reflectPolygon triangleObject.vertices mRight) mBottom :=
  two_chain_compositional triangleObject [mRight, mBottom] 2 mRight mBottom cVo2
    (by decide) (by decide)

/-- C3 (confirmed): for every input, every entity returned by
generateVirtualObjects and generateVirtualViewers has a reflectionChain with
no two consecutive entries being the same mirror instance, where sameness
includes the identity token, not only coordinates. -/
theorem no_immediate_back_reflection :
    ∀ (object : PolygonObject) (viewer : Option Viewer) (mirrors : List Mirror)
      (maxDepth : Int),
      (∀ vo ∈ generateVirtualObjects object mirrors maxDepth,
        ∀ (i : Nat) (h : i + 1 < vo.reflectionChain.length),
          vo.reflectionChain.get ⟨i, by omega⟩ ≠ vo.reflectionChain.get ⟨i + 1, h⟩) ∧
      (∀ vv ∈ generateVirtualViewers viewer mirrors maxDepth,
        ∀ (i : Nat) (h : i + 1 < vv.reflectionChain.length),
          vv.reflectionChain.get ⟨i, by omega⟩ ≠ vv.reflectionChain.get ⟨i + 1, h⟩) := by
  intro object viewer mirrors maxDepth
  constructor
  · intro vo hvo i h
    unfold generateVirtualObjects at hvo
    have hchain := generateReflectionsRecursive_chain_ne maxDepth.toNat object.vertices
      object mirrors maxDepth 0 [] List.chain'_nil vo hvo
    exact List.chain'_iff_get.mp hchain i (by omega)
  · intro vv hvv i h
    match viewer with
    | none =>
      unfold generateVirtualViewers at hvv
      simp at hvv
    | some v =>
      unfold generateVirtualViewers at hvv
      have hchain := generateViewerReflectionsRecursive_chain_ne maxDepth.toNat
        v.getPosition v mirrors maxDepth 0 [] List.chain'_nil vv hvv
      exact List.chain'_iff_get.mp hchain i (by omega)

/-- C3 witness: applied to the concrete depth-2 object node and depth-2
viewer node for the chain [mRight, mBottom], at index 0. -/
theorem no_immediate_back_reflection_witness :
    cVo2.reflectionChain.get ⟨0, by decide⟩ ≠ cVo2.reflectionChain.get ⟨1, by decide⟩ ∧
    cVv2.reflectionChain.get ⟨0, by decide⟩ ≠ cVv2.reflectionChain.get ⟨1, by decide⟩ :=
  ⟨(no_immediate_back_reflection triangleObject (some cViewer) [mRight, mBottom] 2).1
      cVo2 (by decide) 0 (by decide),
    (no_immediate_back_reflection triangleObject (some cViewer) [mRight, mBottom] 2).2
      cVv2 (by decide) 0 (by decide)⟩

/-- C4 (confirmed): the incremental update that reflects only across
reflectionChain[0] disagrees with the full stepwise recomputation on a
concrete depth-2 entity whose chain holds two distinct orthogonal mirrors,
and agrees with it on every depth-1 entity. -/
theorem incremental_update_depth1_only :
    ((updateVirtualObjects [cVo2]).map VirtualObject.vertices ≠
        [reflectPolygon (reflectPolygon cVo2.originalObject.vertices mRight) mBottom] ∧
      cVo2.reflectionChain = [mRight, mBottom] ∧ mRight ≠ mBottom ∧
      mRight.isVertical = true ∧ mBottom.isHorizontal = true) ∧
    (∀ (object : PolygonObject) (m : Mirror) (depth : Nat) (vertices : List Point),
      (updateVirtualObjects [mkVirtualObject object [m] depth vertices]).map
          VirtualObject.vertices = [reflectPolygon object.vertices m]) := by
  constructor
  · exact ⟨by decide, by decide, by decide, by decide, by decide⟩
  · intro object m depth vertices
    simp [updateVirtualObjects, mkVirtualObject, VirtualObject.updatePosition]

/-- C5 (confirmed): reflectPoint negates the coordinate perpendicular to the
mirror line, 2*x1 - x for vertical mirrors and 2*y1 - y for horizontal
ones, and Scenario 1 reflects (40,50) across the vertical mirror at x = 100
to (160,50). -/
theorem reflectPoint_formulas :
    ∀ (point : Point) (mirror : Mirror),
      (mirror.x1 = mirror.x2 →
        reflectPoint point mirror = { x := 2 * mirror.x1 - point.x, y := point.y }) ∧
      (mirror.y1 = mirror.y2 → mirror.x1 ≠ mirror.x2 →
        reflectPoint point mirror = { x := point.x, y := 2 * mirror.y1 - point.y }) ∧
      reflectPoint { x := 40, y := 50 } mRight = { x := 160, y := 50 } := by
  intro point mirror
  refine ⟨?_, ?_, ?_⟩
  · intro hv
    simp [reflectPoint, Mirror.isVertical, hv]
  · intro hh hv
    simp [reflectPoint, Mirror.isVertical, Mirror.isHorizontal, hv, hh]
  · decide

/-- C5 witness: the vertical formula at Scenario 1's input and the
horizontal formula at Scenario 2's input. -/
theorem reflectPoint_formulas_witness :
    reflectPoint { x := 40, y := 50 } mRight
        = { x := 2 * mRight.x1 - 40, y := 50 } ∧
      reflectPoint { x := 40, y := 20 } mHorizontal50
        = { x := 40, y := 2 * mHorizontal50.y1 - 20 } :=
  ⟨(reflectPoint_formulas { x := 40, y := 50 } mRight).1 (by decide),
    (reflectPoint_formulas { x := 40, y := 20 } mHorizontal50).2.1 (by decide) (by decide)⟩

/-- C6 (confirmed): on every mirror satisfying the exactly-one-orientation
invariant, reflectPoint is an involution, exactly, over exact rational
arithmetic. -/
theorem reflectPoint_involution :
    ∀ (point : Point) (mirror : Mirror),
      ((mirror.x1 = mirror.x2 ∧ mirror.y1 ≠ mirror.y2) ∨
        (mirror.x1 ≠ mirror.x2 ∧ mirror.y1 = mirror.y2)) →
      reflectPoint (reflectPoint point mirror) mirror = point := by
  intro point mirror h
  obtain ⟨px, py⟩ := point
  rcases h with ⟨hv, _⟩ | ⟨hv, hh⟩
  · simp [reflectPoint, Mirror.isVertical, hv]
  · simp [reflectPoint, Mirror.isVertical, Mirror.isHorizontal, hv, hh]

/-- C6 witness: the involution at (40,50) across the vertical mirror mRight. -/
theorem reflectPoint_involution_witness :
    reflectPoint (reflectPoint { x := 40, y := 50 } mRight) mRight
      = { x := 40, y := 50 } :=
  reflectPoint_involution { x := 40, y := 50 } mRight (Or.inl (by decide))

/-- C7: the claim fails on the code: at a concrete non-orthogonal mirror no
failure is raised at all; reflectPoint returns the input point unchanged
(reaching its console warning), i.e. it takes the fallback path, never a
failing one. -/
theorem reflectPoint_nonorthogonal_counterexample :
    reflectPoint { x := 40, y := 50 } mDiagonal = { x := 40, y := 50 } ∧
    reflectPointWarns mDiagonal = true := by
  exact ⟨by decide, by decide⟩

/-- C7 amended: for every point and every mirror that is neither vertical
nor horizontal, reflectPoint does not fail: it returns the input point
unchanged while surfacing a warning, the spec's stated fallback policy. -/
theorem reflectPoint_nonorthogonal_fallback :
    ∀ (point : Point) (mirror : Mirror),
      mirror.x1 ≠ mirror.x2 → mirror.y1 ≠ mirror.y2 →
      reflectPoint point mirror = point ∧ reflectPointWarns mirror = true := by
  intro point mirror hx hy
  constructor
  · simp [reflectPoint, Mirror.isVertical, Mirror.isHorizontal, hx, hy]
  · simp [reflectPointWarns, Mirror.isVertical, Mirror.isHorizontal, hx, hy]

/-- C7 witness: the fallback at (40,50) and the concrete diagonal mirror. -/
theorem reflectPoint_nonorthogonal_fallback_witness :
    reflectPoint { x := 40, y := 50 } mDiagonal = { x := 40, y := 50 } ∧
    reflectPointWarns mDiagonal = true :=
  reflectPoint_nonorthogonal_fallback { x := 40, y := 50 } mDiagonal (by decide) (by decide)

/-- C8: the claim fails on the code: maxDepth = -1 is not rejected and no
error is raised; the engine silently returns the empty list, exactly the
result for maxDepth = 0. -/
theorem negative_maxDepth_counterexample :
    generateVirtualObjects triangleObject boxMirrors (-1) = [] ∧
    generateVirtualObjects triangleObject boxMirrors 0 = [] ∧
    calculateAllReflections [triangleObject] boxMirrors (-1) = [] := by
  exact ⟨by decide, by decide, by decide⟩

/-- C8 amended: for every object, mirror list and maxDepth ≤ 0 (negative
included), generateVirtualObjects and calculateAllReflections are not
rejected at the call boundary: they silently return the empty list, the
same result as maxDepth = 0. -/
theorem negative_maxDepth_silently_empty :
    ∀ (object : PolygonObject) (objects : List PolygonObject) (mirrors : List Mirror)
      (maxDepth : Int),
      maxDepth ≤ 0 →
      generateVirtualObjects object mirrors maxDepth = [] ∧
      generateVirtualObjects object mirrors maxDepth
        = generateVirtualObjects object mirrors 0 ∧
      calculateAllReflections objects mirrors maxDepth = [] := by
  intro object objects mirrors maxDepth hd
  have hgen : ∀ o : PolygonObject, generateVirtualObjects o mirrors maxDepth = [] := by
    intro o
    unfold generateVirtualObjects
    exact generateReflectionsRecursive_stop (by push_cast; omega)
  have h0 : generateVirtualObjects object mirrors 0 = [] := by
    unfold generateVirtualObjects
    exact generateReflectionsRecursive_stop (by simp)
  refine ⟨hgen object, by rw [hgen object, h0], ?_⟩
  unfold calculateAllReflections
  simp [hgen]

/-- C8 witness: at depth -1 with the concrete box scene. -/
theorem negative_maxDepth_silently_empty_witness :
    generateVirtualObjects triangleObject boxMirrors (-1) = [] ∧
    generateVirtualObjects triangleObject boxMirrors (-1)
      = generateVirtualObjects triangleObject boxMirrors 0 ∧
    calculateAllReflections [triangleObject] boxMirrors (-1) = [] :=
  negative_maxDepth_silently_empty triangleObject [triangleObject] boxMirrors (-1) (by decide)

/-- C9 (confirmed): every virtual entity returned by one engine invocation
has opacity max(0.3, 1 - depth * 0.2), and over the returned entities the
opacity is monotonically non-increasing in depth. -/
theorem opacity_law :
    ∀ (object : PolygonObject) (viewer : Option Viewer) (mirrors : List Mirror)
      (maxDepth : Int),
      (∀ vo ∈ generateVirtualObjects object mirrors maxDepth,
        vo.opacity = max (3 / 10) (1 - (vo.depth : ℚ) * (2 / 10))) ∧
      (∀ vv ∈ generateVirtualViewers viewer mirrors maxDepth,
        vv.opacity = max (3 / 10) (1 - (vv.depth : ℚ) * (2 / 10))) ∧
      (∀ vo1 ∈ generateVirtualObjects object mirrors maxDepth,
        ∀ vo2 ∈ generateVirtualObjects object mirrors maxDepth,
          vo1.depth ≤ vo2.depth → vo2.opacity ≤ vo1.opacity) ∧
      (∀ vv1 ∈ generateVirtualViewers viewer mirrors maxDepth,
        ∀ vv2 ∈ generateVirtualViewers viewer mirrors maxDepth,
          vv1.depth ≤ vv2.depth → vv2.opacity ≤ vv1.opacity) := by
  intro object viewer mirrors maxDepth
  have hobj : ∀ vo ∈ generateVirtualObjects object mirrors maxDepth,
      vo.opacity = max (3 / 10) (1 - (vo.depth : ℚ) * (2 / 10)) := by
    intro vo hvo
    unfold generateVirtualObjects at hvo
    exact generateReflectionsRecursive_opacity maxDepth.toNat object.vertices object
      mirrors maxDepth 0 [] vo hvo
  have hview : ∀ vv ∈ generateVirtualViewers viewer mirrors maxDepth,
      vv.opacity = max (3 / 10) (1 - (vv.depth : ℚ) * (2 / 10)) := by
    intro vv hvv
    match viewer with
    | none =>
      unfold generateVirtualViewers at hvv
      simp at hvv
    | some v =>
      unfold generateVirtualViewers at hvv
      exact generateViewerReflectionsRecursive_opacity maxDepth.toNat v.getPosition v
        mirrors maxDepth 0 [] vv hvv
  refine ⟨hobj, hview, ?_, ?_⟩
  · intro vo1 h1 vo2 h2 hle
    rw [hobj vo1 h1, hobj vo2 h2]
    exact opacity_formula_antitone hle
  · intro vv1 h1 vv2 h2 hle
    rw [hview vv1 h1, hview vv2 h2]
    exact opacity_formula_antitone hle

/-- C9 witness: the opacity law at the concrete depth-2 object and viewer
entities of the box scene, and monotonicity from depth 1 to depth 2. -/
theorem opacity_law_witness :
    cVo2.opacity = max (3 / 10) (1 - (cVo2.depth : ℚ) * (2 / 10)) ∧
    cVv2.opacity = max (3 / 10) (1 - (cVv2.depth : ℚ) * (2 / 10)) ∧
    cVo2.opacity ≤ cVo1.opacity :=
  ⟨(opacity_law triangleObject (some cViewer) [mRight, mBottom] 2).1 cVo2 (by decide),
    (opacity_law triangleObject (some cViewer) [mRight, mBottom] 2).2.1 cVv2 (by decide),
    (opacity_law triangleObject (some cViewer) [mRight, mBottom] 2).2.2.1 cVo1 (by decide)
      cVo2 (by decide) (by decide)⟩

/-- C10 (confirmed): a degenerate mirror with coinciding endpoints satisfies
both orientation predicates, and reflectPoint treats it as vertical because
the vertical check is performed first. -/
theorem degenerate_mirror_vertical_precedence :
    ∀ (point : Point) (mirror : Mirror),
      mirror.x1 = mirror.x2 → mirror.y1 = mirror.y2 →
      reflectPoint point mirror = { x := 2 * mirror.x1 - point.x, y := point.y } ∧
      mirror.isVertical = true ∧ mirror.isHorizontal = true := by
  intro point mirror hx hy
  refine ⟨?_, ?_, ?_⟩
  · simp [reflectPoint, Mirror.isVertical, hx]
  · simp [Mirror.isVertical, hx]
  · simp [Mirror.isHorizontal, hy]

/-- C10 witness: at the concrete degenerate point mirror. -/
theorem degenerate_mirror_vertical_precedence_witness :
    reflectPoint { x := 40, y := 50 } mDegenerate
        = { x := 2 * mDegenerate.x1 - 40, y := 50 } ∧
      mDegenerate.isVertical = true ∧ mDegenerate.isHorizontal = true :=
  degenerate_mirror_vertical_precedence { x := 40, y := 50 } mDegenerate
    (by decide) (by decide)
